import Mathlib

/-!
Shallow embedding of `uppies` (`src/lib.rs`): a per-target ICMP prober
(`Dispatcher`), a bounded tokio mpsc result channel, the per-target
collector loop spawned by `ping_targets`, and the orchestrating
`PingSender` with its three prometheus instruments.

Modelling conventions:
* `std::time::Duration` is its nanosecond count (`Nat`); `as_millis` is
  integer division by 1 000 000, and the `as f64` cast is exact for every
  value that arises, so observed samples are modelled as exact rationals.
* The tokio bounded mpsc channel is a FIFO buffer plus the two
  closed-endpoint flags.  `try_recv` yields a buffered item first, then
  reports `Disconnected` only when the buffer is empty and the sender is
  gone; `send(..).await` fails only when the receiver is gone, and waits
  (does not fail) when the buffer is full.
* The prometheus registry is the list of registered collector names;
  `register` fails on a duplicate name (`AlreadyReg`).  `IntCounterVec`
  and `HistogramVec` are label-keyed accumulators; `with_label_values`
  creates an absent child at zero before mutating it.
* Fallible external initialisation (`surge_ping::Client::new`) is a
  boolean parameter `clientOk`: the code only propagates its error.
* `IpAddr::from_str` (std) is abstracted as a `parse` oracle argument of
  type `String → Option IpAddr`; the code only pattern-matches on
  success vs failure via `?`.
-/

namespace Uppies

/-- `std::time::Duration`, as its total number of nanoseconds. -/
structure Duration where
  nanos : Nat
deriving DecidableEq

/-- `Duration::as_millis`: whole milliseconds, truncating. -/
def Duration.as_millis (d : Duration) : Nat :=
  d.nanos / 1000000

/-- The error cases that the library code can surface through its boxed
`Result` type (`type Result<T, E = Box<dyn Error + Send + Sync>>`). -/
inductive UppiesError
  /-- `surge_ping::Client::new` failed (e.g. missing raw-socket privilege). -/
  | socketInit
  /-- `IpAddr::from_str(&self.target)` failed inside `Dispatcher::run`. -/
  | addrParse
  /-- `tokio::sync::mpsc` `SendError`: the receiving half was dropped. -/
  | sendError
  /-- prometheus `Registry::register` rejected a duplicate collector. -/
  | duplicateMetric
deriving DecidableEq

/-- A value carried on the result channel: `Result<Duration>`.  The boxed
error payload is only ever matched with `Err(_)` by the collector, so it
is abstracted away. -/
inductive ProbeOutcome
  | success (d : Duration)
  | failure
deriving DecidableEq

/-- A bounded `tokio::sync::mpsc` channel of `Result<Duration>`:
FIFO buffer (head = oldest) plus the state of the two endpoints. -/
structure Channel where
  capacity : Nat
  buffer : List ProbeOutcome
  senderClosed : Bool
  receiverClosed : Bool
deriving DecidableEq

/-- Result of `Receiver::try_recv`. -/
inductive TryRecv
  /-- a buffered value, and the channel after removing it -/
  | got (o : ProbeOutcome) (c : Channel)
  /-- `TryRecvError::Empty` -/
  | empty
  /-- `TryRecvError::Disconnected` -/
  | disconnected
deriving DecidableEq

/-- `Receiver::try_recv`: a buffered value is returned even after the
sender closed; `Disconnected` is reported only on an empty, closed
channel. -/
def Channel.try_recv (c : Channel) : TryRecv :=
  match c.buffer with
  | o :: rest => .got o { c with buffer := rest }
  | [] => if c.senderClosed then .disconnected else .empty

/-- Result of one `Sender::send(..).await`. -/
inductive SendOutcome
  /-- the value was enqueued; the loop continues with this channel -/
  | sent (c : Channel)
  /-- the buffer is full and the receiver alive: the send suspends,
  waiting for capacity (it neither fails nor drops the value) -/
  | awaitingCapacity
  /-- `SendError`: the receiving half was dropped -/
  | closed
deriving DecidableEq

/-- `Sender::send(..).await`, one step: fails only when the receiver is
gone; enqueues FIFO when there is capacity; otherwise suspends. -/
def Channel.send (c : Channel) (o : ProbeOutcome) : SendOutcome :=
  if c.receiverClosed then .closed
  else if c.buffer.length < c.capacity then .sent { c with buffer := c.buffer ++ [o] }
  else .awaitingCapacity

/-- The label-keyed state of a prometheus `IntCounterVec`: association
list from label value to counter.  An absent label means that child
instrument was never created and is absent from exposition. -/
abbrev CounterVec := List (String × Nat)

/-- Value of the child instrument for a label, if that child exists. -/
def CounterVec.get? (v : CounterVec) (l : String) : Option Nat :=
  match v with
  | [] => none
  | (k, n) :: rest => if k = l then some n else CounterVec.get? rest l

/-- `with_label_values(&[l]).inc_by(n)`: creates the child at zero when
absent, then adds `n`. -/
def CounterVec.inc_by (v : CounterVec) (l : String) (n : Nat) : CounterVec :=
  match v with
  | [] => [(l, n)]
  | (k, m) :: rest =>
    if k = l then (k, m + n) :: rest else (k, m) :: CounterVec.inc_by rest l n

/-- `with_label_values(&[l]).inc()`. -/
def CounterVec.inc (v : CounterVec) (l : String) : CounterVec :=
  CounterVec.inc_by v l 1

/-- Per-label observation lists of a `HistogramVec` (newest last). -/
def addSample (xs : List (String × List ℚ)) (l : String) (x : ℚ) :
    List (String × List ℚ) :=
  match xs with
  | [] => [(l, [x])]
  | (k, ys) :: rest =>
    if k = l then (k, ys ++ [x]) :: rest else (k, ys) :: addSample rest l x

/-- Observations recorded so far for a label (empty when the child was
never created). -/
def lookupSamples (xs : List (String × List ℚ)) (l : String) : List ℚ :=
  match xs with
  | [] => []
  | (k, ys) :: rest => if k = l then ys else lookupSamples rest l

/-- A prometheus `HistogramVec`: the fixed bucket upper bounds it was
created with, and the label-keyed observations. -/
structure HistogramVec where
  buckets : List ℚ
  samples : List (String × List ℚ)
deriving DecidableEq

/-- `with_label_values(&[l]).observe(x)`. -/
def HistogramVec.observe (h : HistogramVec) (l : String) (x : ℚ) : HistogramVec :=
  { h with samples := addSample h.samples l x }

/-- The observations held for a label. -/
def HistogramVec.samplesFor (h : HistogramVec) (l : String) : List ℚ :=
  lookupSamples h.samples l

/-- The prometheus `Registry`, as the names of its registered
collectors. -/
abbrev Registry := List String

/-- `Registry::register`: fails with `AlreadyReg` when a collector of
the same name is already registered. -/
def Registry.register (r : Registry) (name : String) : Except UppiesError Registry :=
  if name ∈ r then .error .duplicateMetric else .ok (name :: r)

/-- An `IpAddr` as produced by std's `IpAddr::from_str`. -/
inductive IpAddr
  | v4 (a b c d : Nat)
  | v6 (segments : List Nat)
deriving DecidableEq

/-- The `Dispatcher` struct.  The `client` handle is not represented
(its fallible creation is the `clientOk` argument of `Dispatcher.new`);
the `result_tx` half lives in the `Channel` returned alongside. -/
structure Dispatcher where
  target : String
  ping_interval_ms : Nat
deriving DecidableEq

/-- The channel made by `tokio::sync::mpsc::channel(5)`. -/
def initChannel : Channel :=
  { capacity := 5, buffer := [], senderClosed := false, receiverClosed := false }

/-- `Dispatcher::new`: builds the ICMP client and the bounded channel of
capacity 5.  The target string is stored untouched — no address parsing
or validation happens here.  `clientOk` says whether
`surge_ping::Client::new(&Config::new())` succeeds. -/
def Dispatcher.new (target : String) (ping_interval_ms : Nat) (clientOk : Bool) :
    Except UppiesError (Dispatcher × Channel) :=
  if clientOk then
    .ok ({ target := target, ping_interval_ms := ping_interval_ms }, initChannel)
  else
    .error .socketInit

/-- The address-resolution step at the top of `Dispatcher::run`:
`IpAddr::from_str(&self.target)?`.  On a parse failure the `?` returns
the error, so `run` terminates before the ping loop starts — inside the
already-spawned task, not at construction. -/
def Dispatcher.runAddrStep (parse : String → Option IpAddr) (d : Dispatcher) :
    Except UppiesError IpAddr :=
  match parse d.target with
  | some ip => .ok ip
  | none => .error .addrParse

/-- Classification of one `pinger.ping(..)` result inside the run loop:
`Ok((_, duration))` becomes `Ok(duration)` on the channel, any error
becomes `Err(..)`. -/
def outcomeOf (pingResult : Option Duration) : ProbeOutcome :=
  match pingResult with
  | some d => ProbeOutcome.success d
  | none => ProbeOutcome.failure

/-- What one iteration of the `Dispatcher::run` loop does to the
channel. -/
inductive RunStep
  /-- the outcome was sent; the loop continues -/
  | looped (c : Channel)
  /-- `send(..).await` is suspended waiting for channel capacity -/
  | sendWait
  /-- `self.result_tx.send(..).await?` returned an error: the run loop
  terminates with it -/
  | fatal (e : UppiesError)
deriving DecidableEq

/-- One iteration of the `Dispatcher::run` loop, after the tick: ping,
classify, and push via `self.result_tx.send(..).await?`. -/
def Dispatcher.runLoopStep (pingResult : Option Duration) (c : Channel) : RunStep :=
  match Channel.send c (outcomeOf pingResult) with
  | .sent c2 => .looped c2
  | .awaitingCapacity => .sendWait
  | .closed => .fatal .sendError

/-- The shared metric instruments, as the collector task captures them
(cloned handles to one underlying instrument each). -/
structure Metrics where
  success_count : CounterVec
  failure_count : CounterVec
  ping_duration_ms : HistogramVec
deriving DecidableEq

/-- What one tick of the spawned collector loop does. -/
inductive CollectorStep
  /-- the loop continues with these instruments and this channel -/
  | next (m : Metrics) (c : Channel)
  /-- `panic!("send disconnected")` -/
  | panicked (msg : String)
deriving DecidableEq

/-- One tick of the collector loop in `ping_targets`: `rx.try_recv()`,
then on `Ok(Ok(d))` increment the success counter and observe
`d.as_millis() as f64`; on `Ok(Err(_))` increment the failure counter;
on `Empty` continue unchanged; on `Disconnected` panic. -/
def collectorTick (target : String) (m : Metrics) (c : Channel) : CollectorStep :=
  match Channel.try_recv c with
  | .got (.success d) c2 =>
    .next
      { m with
        success_count := CounterVec.inc m.success_count target,
        ping_duration_ms :=
          HistogramVec.observe m.ping_duration_ms target ((Duration.as_millis d : ℚ)) }
      c2
  | .got .failure c2 =>
    .next { m with failure_count := CounterVec.inc m.failure_count target } c2
  | .empty => .next m c
  | .disconnected => .panicked "send disconnected"

/-- `let receive_interval = dispatcher.ping_interval_ms.div_ceil(2)`:
the period, in milliseconds, of the collector's poll timer.
`u64::div_ceil` is `self / rhs` plus one when there is a remainder. -/
def receive_interval (ping_interval_ms : Nat) : Nat :=
  ping_interval_ms / 2 + if ping_interval_ms % 2 = 0 then 0 else 1

/-- Map `Dispatcher::new` over the target list and collect, as
`targets.iter().map(..).collect::<Result<_>>()?` does: stops at the
first error. -/
def collectResults {α β : Type} (f : α → Except UppiesError β) :
    List α → Except UppiesError (List β)
  | [] => .ok []
  | a :: rest =>
    match f a with
    | .error e => .error e
    | .ok b =>
      match collectResults f rest with
      | .error e => .error e
      | .ok bs => .ok (b :: bs)

/-- The bucket upper bounds passed to `HistogramOpts::new(..).buckets`. -/
def pingBuckets : List ℚ :=
  [1, 5, 10, 25, 50, 100, 250, 500, 1000, 2500]

/-- The `PingSender` struct. -/
structure PingSender where
  dispatchers : List (Dispatcher × Channel)
  success_count : CounterVec
  failure_count : CounterVec
  ping_duration_ms : HistogramVec
deriving DecidableEq

/-- `PingSender::new`: create the three instruments (their fixed names
and label list are valid, so creation itself cannot fail), register each
into the provided registry in order, then construct one dispatcher per
target.  The updated registry is returned alongside (the Rust code
mutates it through `&Registry`). -/
def PingSender.new (targets : List String) (ping_interval_ms : Nat)
    (metrics : Registry) (clientOk : Bool) :
    Except UppiesError (PingSender × Registry) :=
  match Registry.register metrics "ping_success_count" with
  | .error e => .error e
  | .ok r1 =>
    match Registry.register r1 "ping_failure_count" with
    | .error e => .error e
    | .ok r2 =>
      match Registry.register r2 "ping_duration_ms" with
      | .error e => .error e
      | .ok r3 =>
        match collectResults (fun t => Dispatcher.new t ping_interval_ms clientOk) targets with
        | .error e => .error e
        | .ok ds =>
          .ok
            ({ dispatchers := ds,
               success_count := [],
               failure_count := [],
               ping_duration_ms := { buckets := pingBuckets, samples := [] } },
             r3)

/-- The synchronous part of `ping_targets`: for every dispatcher, before
its tasks are spawned, run
`failure_count.with_label_values(&[target]).inc_by(0)`, initialising the
failure-count child for that target.  Returns the shared instruments
after this initialisation. -/
def ping_targets_setup (s : PingSender) : Metrics :=
  { success_count := s.success_count,
    failure_count :=
      s.dispatchers.foldl (fun fc p => CounterVec.inc_by fc p.1.target 0) s.failure_count,
    ping_duration_ms := s.ping_duration_ms }

/-- How many tasks `ping_targets` spawns: two `tokio::spawn` calls per
dispatcher (the run loop and the collector loop). -/
def ping_targets_task_count (s : PingSender) : Nat :=
  2 * s.dispatchers.length

/-- `Except.isOk` as a plain function on the library's result type. -/
def exceptIsOk {α : Type} (e : Except UppiesError α) : Bool :=
  match e with
  | .ok _ => true
  | .error _ => false

/-- A full channel (five buffered outcomes, capacity 5) whose receiver
is still alive. -/
def fullChannel : Channel :=
  { capacity := 5,
    buffer := [.failure, .failure, .failure, .failure, .failure],
    senderClosed := false,
    receiverClosed := false }

/-- The `PingSender` value that `PingSender::new` produces for the
single target `1.1.1.1` at a 250 ms interval against a fresh registry. -/
def sampleSender : PingSender :=
  { dispatchers := [({ target := "1.1.1.1", ping_interval_ms := 250 }, initChannel)],
    success_count := [],
    failure_count := [],
    ping_duration_ms := { buckets := pingBuckets, samples := [] } }

/-- The registry contents after one successful `PingSender::new` against
a fresh registry. -/
def sampleRegistry : Registry :=
  ["ping_duration_ms", "ping_failure_count", "ping_success_count"]

/-- The `PingSender` value that `PingSender::new` produces for an empty
target list against a fresh registry. -/
def emptyPingSender : PingSender :=
  { dispatchers := [],
    success_count := [],
    failure_count := [],
    ping_duration_ms := { buckets := pingBuckets, samples := [] } }

/-! ## Helper lemmas about the instrument operations -/

theorem CounterVec.get?_inc_by (v : CounterVec) (l t : String) (n : Nat) :
    CounterVec.get? (CounterVec.inc_by v l n) t
      = if t = l then some ((CounterVec.get? v t).getD 0 + n) else CounterVec.get? v t := by
  induction v with
  | nil =>
    by_cases ht : t = l
    · subst ht
      simp [CounterVec.inc_by, CounterVec.get?]
    · have h2 : ¬ l = t := fun h => ht h.symm
      simp [CounterVec.inc_by, CounterVec.get?, ht, h2]
  | cons p rest ih =>
    obtain ⟨k, m⟩ := p
    by_cases hk : k = l
    · subst hk
      by_cases ht : t = k
      · subst ht
        simp [CounterVec.inc_by, CounterVec.get?]
      · have hkt : ¬ k = t := fun h => ht h.symm
        simp [CounterVec.inc_by, CounterVec.get?, ht, hkt]
    · by_cases hkt : k = t
      · subst hkt
        simp [CounterVec.inc_by, CounterVec.get?, hk]
      · simp [CounterVec.inc_by, CounterVec.get?, hk, hkt, ih]

theorem CounterVec.get?_inc (v : CounterVec) (l : String) :
    CounterVec.get? (CounterVec.inc v l) l = some ((CounterVec.get? v l).getD 0 + 1) := by
  simp [CounterVec.inc, CounterVec.get?_inc_by]

theorem lookupSamples_addSample (xs : List (String × List ℚ)) (l : String) (x : ℚ) :
    lookupSamples (addSample xs l x) l = lookupSamples xs l ++ [x] := by
  induction xs with
  | nil => simp [addSample, lookupSamples]
  | cons p rest ih =>
    obtain ⟨k, ys⟩ := p
    by_cases hk : k = l
    · simp [addSample, lookupSamples, hk]
    · simp [addSample, lookupSamples, hk, ih]

theorem HistogramVec.samplesFor_observe (h : HistogramVec) (l : String) (x : ℚ) :
    HistogramVec.samplesFor (HistogramVec.observe h l x) l
      = HistogramVec.samplesFor h l ++ [x] := by
  simp [HistogramVec.observe, HistogramVec.samplesFor, lookupSamples_addSample]

theorem collectResults_dispatcher_ok (targets : List String) (i : Nat) :
    collectResults (fun t => Dispatcher.new t i true) targets
      = .ok (targets.map fun t => ({ target := t, ping_interval_ms := i }, initChannel)) := by
  induction targets with
  | nil => rfl
  | cons t rest ih =>
    have hnew : Dispatcher.new t i true
        = .ok ({ target := t, ping_interval_ms := i }, initChannel) := rfl
    simp only [collectResults, hnew, ih, List.map]

/-- Inversion of a successful `PingSender::new`: the instruments start
empty (hence absent children), the histogram carries `pingBuckets`, the
dispatchers are the collected per-target constructions, and the registry
gained exactly the three instrument names. -/
theorem PingSender.new_ok_inv {targets : List String} {i : Nat} {r : Registry}
    {ck : Bool} {s : PingSender} {r2 : Registry}
    (h : PingSender.new targets i r ck = .ok (s, r2)) :
    s.success_count = [] ∧ s.failure_count = [] ∧
    s.ping_duration_ms = { buckets := pingBuckets, samples := [] } ∧
    collectResults (fun t => Dispatcher.new t i ck) targets = .ok s.dispatchers ∧
    r2 = "ping_duration_ms" :: "ping_failure_count" :: "ping_success_count" :: r ∧
    "ping_success_count" ∉ r ∧ "ping_failure_count" ∉ r ∧ "ping_duration_ms" ∉ r := by
  by_cases h1 : "ping_success_count" ∈ r
  · simp [PingSender.new, Registry.register, h1] at h
  · by_cases h2 : "ping_failure_count" ∈ r
    · simp [PingSender.new, Registry.register, h1, h2] at h
    · by_cases h3 : "ping_duration_ms" ∈ r
      · simp [PingSender.new, Registry.register, h1, h2, h3] at h
      · cases hds : collectResults (fun t => Dispatcher.new t i ck) targets with
        | error e => simp [PingSender.new, Registry.register, h1, h2, h3, hds] at h
        | ok ds =>
          simp [PingSender.new, Registry.register, h1, h2, h3, hds] at h
          obtain ⟨hs, hr⟩ := h
          subst hs
          subst hr
          exact ⟨rfl, rfl, rfl, rfl, rfl, h1, h2, h3⟩

/-! ## Claims -/

/-- C1 counterexample: `"not-an-ip"` is not an IP literal, yet
`Dispatcher::new` (transport init succeeding) and `PingSender::new` on a
target list containing it both succeed — no address-parse error is
surfaced at construction. -/
theorem c1_counterexample :
    exceptIsOk (Dispatcher.new "not-an-ip" 250 true) = true ∧
    exceptIsOk (PingSender.new ["not-an-ip"] 250 [] true) = true := by
  constructor
  · rfl
  · rfl

/-- C1 (amended): `Dispatcher::new` performs no address validation and
succeeds for every target string whenever the ICMP transport
initialises; an unparseable target is instead rejected by the
`IpAddr::from_str` step at the top of `Dispatcher::run`, i.e. inside the
already-spawned task, which terminates with an address-parse error. -/
theorem c1_amended_addr_error_in_run (target : String) (i : Nat)
    (parse : String → Option IpAddr) (hp : parse target = none) :
    Dispatcher.new target i true
      = .ok ({ target := target, ping_interval_ms := i }, initChannel) ∧
    Dispatcher.runAddrStep parse { target := target, ping_interval_ms := i }
      = .error .addrParse := by
  refine ⟨rfl, ?_⟩
  simp [Dispatcher.runAddrStep, hp]

/-- C1 witness: the amended statement at the concrete unparseable target
`"not-an-ip"` under a parse oracle rejecting it. -/
theorem c1_witness :
    Dispatcher.new "not-an-ip" 250 true
      = .ok ({ target := "not-an-ip", ping_interval_ms := 250 }, initChannel) ∧
    Dispatcher.runAddrStep (fun _ => none) { target := "not-an-ip", ping_interval_ms := 250 }
      = .error .addrParse :=
  c1_amended_addr_error_in_run "not-an-ip" 250 (fun _ => none) rfl

/-- C2 counterexample: pushing onto a full channel whose receiver is
alive does not fail and does not terminate the run loop — the
`send(..).await` suspends waiting for capacity. -/
theorem c2_counterexample :
    Dispatcher.runLoopStep (some { nanos := 1000000 }) fullChannel = RunStep.sendWait ∧
    Dispatcher.runLoopStep (some { nanos := 1000000 }) fullChannel
      ≠ RunStep.fatal UppiesError.sendError := by
  constructor
  · rfl
  · decide

/-- C2 (amended): the push fails — and the run loop terminates fatally,
without retrying — exactly when the receiving end has been dropped; on a
full channel with a live receiver the push instead waits for capacity
(neither failing nor dropping the outcome), and with capacity available
the outcome is enqueued FIFO. -/
theorem c2_amended_send_semantics (pingResult : Option Duration) (c : Channel) :
    (c.receiverClosed = true →
      Dispatcher.runLoopStep pingResult c = RunStep.fatal UppiesError.sendError) ∧
    (c.receiverClosed = false → c.capacity ≤ c.buffer.length →
      Dispatcher.runLoopStep pingResult c = RunStep.sendWait) ∧
    (c.receiverClosed = false → c.buffer.length < c.capacity →
      Dispatcher.runLoopStep pingResult c
        = RunStep.looped { c with buffer := c.buffer ++ [outcomeOf pingResult] }) := by
  refine ⟨?_, ?_, ?_⟩
  · intro hrc
    simp [Dispatcher.runLoopStep, Channel.send, hrc]
  · intro hrc hfull
    simp [Dispatcher.runLoopStep, Channel.send, hrc, Nat.not_lt.mpr hfull]
  · intro hrc hroom
    simp [Dispatcher.runLoopStep, Channel.send, hrc, hroom]

/-- C2 witness: a probe outcome pushed onto a channel whose receiver was
dropped makes the run loop terminate fatally. -/
theorem c2_witness :
    Dispatcher.runLoopStep (some { nanos := 1000000 })
        { capacity := 5, buffer := [], senderClosed := false, receiverClosed := true }
      = RunStep.fatal UppiesError.sendError :=
  (c2_amended_send_semantics (some { nanos := 1000000 })
    { capacity := 5, buffer := [], senderClosed := false, receiverClosed := true }).1 rfl

/-- C3 counterexample: with a probe interval of 5 ms the collector polls
every `5.div_ceil(2) = 3` ms, which is more than half of 5 ms — the
claimed "at most I/2" bound fails for every odd interval. -/
theorem c3_counterexample :
    receive_interval 5 = 3 ∧ ¬ ((receive_interval 5 : ℚ) ≤ (5 : ℚ) / 2) := by
  have h3 : receive_interval 5 = 3 := rfl
  constructor
  · exact h3
  · rw [h3]
    norm_num

/-- C3 (amended): the collector polls with period `I.div_ceil(2)`
milliseconds — exactly `I/2` when `I` is even, and `(I+1)/2` (half a
millisecond above `I/2`) when `I` is odd; the period is strictly shorter
than the probe interval whenever `I ≥ 2`. -/
theorem c3_amended_receive_interval (i : Nat) :
    receive_interval i = (i + 1) / 2 ∧
    2 * receive_interval i = i + i % 2 ∧
    (i % 2 = 0 → 2 * receive_interval i = i) ∧
    (2 ≤ i → receive_interval i < i) := by
  have hri : receive_interval i = i / 2 + if i % 2 = 0 then 0 else 1 := rfl
  by_cases h : i % 2 = 0
  · rw [hri, if_pos h]
    omega
  · rw [hri, if_neg h]
    omega

/-- C3 witness: at the binary's default interval of 250 ms the poll
period is 125 ms, exactly half, and strictly shorter than the
interval. -/
theorem c3_witness :
    2 * receive_interval 250 = 250 ∧ receive_interval 250 < 250 :=
  ⟨(c3_amended_receive_interval 250).2.2.1 rfl,
   (c3_amended_receive_interval 250).2.2.2 (by decide)⟩

/-- C4: one collector tick.  On a buffered `Ok(d)` it increments the
success counter for the target by one and appends `d.as_millis` (as an
exact float) to the target's histogram samples, leaving the failure
counter untouched; on a buffered `Err(_)` it increments the failure
counter by one, leaving the other two instruments untouched; on an
empty, still-connected channel it changes nothing and continues to the
next tick. -/
theorem c4_collector_tick (target : String) (m : Metrics) (c : Channel) :
    (∀ d rest, c.buffer = ProbeOutcome.success d :: rest →
      collectorTick target m c =
        CollectorStep.next
          { m with
            success_count := CounterVec.inc m.success_count target,
            ping_duration_ms :=
              HistogramVec.observe m.ping_duration_ms target ((Duration.as_millis d : ℚ)) }
          { c with buffer := rest } ∧
      CounterVec.get? (CounterVec.inc m.success_count target) target
        = some ((CounterVec.get? m.success_count target).getD 0 + 1) ∧
      HistogramVec.samplesFor
          (HistogramVec.observe m.ping_duration_ms target ((Duration.as_millis d : ℚ)))
          target
        = HistogramVec.samplesFor m.ping_duration_ms target ++ [(Duration.as_millis d : ℚ)]) ∧
    (∀ rest, c.buffer = ProbeOutcome.failure :: rest →
      collectorTick target m c =
        CollectorStep.next
          { m with failure_count := CounterVec.inc m.failure_count target }
          { c with buffer := rest } ∧
      CounterVec.get? (CounterVec.inc m.failure_count target) target
        = some ((CounterVec.get? m.failure_count target).getD 0 + 1)) ∧
    (c.buffer = [] → c.senderClosed = false →
      collectorTick target m c = CollectorStep.next m c) := by
  refine ⟨?_, ?_, ?_⟩
  · intro d rest hbuf
    refine ⟨?_, CounterVec.get?_inc m.success_count target,
      HistogramVec.samplesFor_observe m.ping_duration_ms target _⟩
    simp [collectorTick, Channel.try_recv, hbuf]
  · intro rest hbuf
    refine ⟨?_, CounterVec.get?_inc m.failure_count target⟩
    simp [collectorTick, Channel.try_recv, hbuf]
  · intro hbuf hsc
    simp [collectorTick, Channel.try_recv, hbuf, hsc]

/-- C4 witness: on an empty, still-connected channel the tick is a
no-op. -/
theorem c4_witness :
    collectorTick "1.1.1.1"
        { success_count := [], failure_count := [],
          ping_duration_ms := { buckets := pingBuckets, samples := [] } }
        initChannel
      = CollectorStep.next
          { success_count := [], failure_count := [],
            ping_duration_ms := { buckets := pingBuckets, samples := [] } }
          initChannel :=
  (c4_collector_tick "1.1.1.1"
      { success_count := [], failure_count := [],
        ping_duration_ms := { buckets := pingBuckets, samples := [] } }
      initChannel).2.2 rfl rfl

/-- C5: when the channel's sending side has been closed and no buffered
outcome remains, the collector tick hits `TryRecvError::Disconnected`
and panics with "send disconnected" — it terminates loudly instead of
continuing to tick against the dead channel. -/
theorem c5_disconnected_panics (target : String) (m : Metrics) (c : Channel)
    (hbuf : c.buffer = []) (hclosed : c.senderClosed = true) :
    collectorTick target m c = CollectorStep.panicked "send disconnected" := by
  simp [collectorTick, Channel.try_recv, hbuf, hclosed]

/-- C5 witness: a concrete dead channel makes the collector panic. -/
theorem c5_witness :
    collectorTick "1.1.1.1"
        { success_count := [], failure_count := [],
          ping_duration_ms := { buckets := pingBuckets, samples := [] } }
        { capacity := 5, buffer := [], senderClosed := true, receiverClosed := false }
      = CollectorStep.panicked "send disconnected" :=
  c5_disconnected_panics "1.1.1.1"
    { success_count := [], failure_count := [],
      ping_duration_ms := { buckets := pingBuckets, samples := [] } }
    { capacity := 5, buffer := [], senderClosed := true, receiverClosed := false }
    rfl rfl

/-- C6: if the provided registry already holds an instrument named
`ping_success_count`, `ping_failure_count` or `ping_duration_ms`,
`PingSender::new` fails with the duplicate-registration error; in
particular, after one successful construction against a registry, a
second independent construction against the same (updated) registry
fails with that error. -/
theorem c6_duplicate_registration (t1 t2 : List String) (i1 i2 : Nat)
    (r : Registry) (b1 b2 : Bool) :
    (("ping_success_count" ∈ r ∨ "ping_failure_count" ∈ r ∨ "ping_duration_ms" ∈ r) →
      PingSender.new t1 i1 r b1 = .error .duplicateMetric) ∧
    (∀ s r2, PingSender.new t1 i1 r b1 = .ok (s, r2) →
      PingSender.new t2 i2 r2 b2 = .error .duplicateMetric) := by
  constructor
  · intro hmem
    by_cases h1 : "ping_success_count" ∈ r
    · simp [PingSender.new, Registry.register, h1]
    · by_cases h2 : "ping_failure_count" ∈ r
      · simp [PingSender.new, Registry.register, h1, h2]
      · have h3 : "ping_duration_ms" ∈ r := by
          rcases hmem with h | h | h
          · exact absurd h h1
          · exact absurd h h2
          · exact h
        simp [PingSender.new, Registry.register, h1, h2, h3]
  · intro s r2 hok
    obtain ⟨-, -, -, -, hr2, -, -, -⟩ := PingSender.new_ok_inv hok
    subst hr2
    have hmem1 : ("ping_success_count" : String)
        ∈ ("ping_duration_ms" :: "ping_failure_count" :: "ping_success_count" :: r) :=
      List.mem_cons_of_mem _ (List.mem_cons_of_mem _ (List.mem_cons_self _ _))
    simp [PingSender.new, Registry.register, hmem1]

/-- C6 witness: a registry already holding `ping_duration_ms` makes
construction fail with the duplicate-registration error. -/
theorem c6_witness :
    PingSender.new ["1.1.1.1"] 250 ["ping_duration_ms"] true
      = .error .duplicateMetric :=
  (c6_duplicate_registration ["1.1.1.1"] [] 250 250 ["ping_duration_ms"] true true).1
    (Or.inr (Or.inr (List.mem_cons_self _ _)))

/-- Folding the per-target `inc_by(0)` initialisation over the
dispatcher list: an already-present child keeps its value, a target's
absent child is created at zero, other labels are untouched. -/
theorem fold_inc_by_zero_get (ds : List (Dispatcher × Channel)) (v : CounterVec)
    (t : String) :
    CounterVec.get? (ds.foldl (fun fc p => CounterVec.inc_by fc p.1.target 0) v) t
      = match CounterVec.get? v t with
        | some n => some n
        | none => if t ∈ ds.map (fun p => p.1.target) then some 0 else none := by
  induction ds generalizing v with
  | nil =>
    cases hv : CounterVec.get? v t
    · simp [hv]
    · simp [hv]
  | cons p rest ih =>
    simp only [List.foldl_cons]
    rw [ih, CounterVec.get?_inc_by]
    by_cases htp : t = p.1.target
    · cases hv : CounterVec.get? v t
      · simp [htp, hv]
      · simp [htp, hv]
    · cases hv : CounterVec.get? v t
      · by_cases hmem : t ∈ List.map (fun q => q.1.target) rest
        · simp [hv, htp, hmem]
        · simp [hv, htp, hmem]
      · simp [htp, hv]

/-- C7: after a successful construction (ICMP transport up), the
synchronous part of `ping_targets` runs the explicit
`failure_count.with_label_values(&[target]).inc_by(0)` for every
configured target, so each target's failure-count child instrument
exists with value 0 before any probe outcome is processed. -/
theorem c7_failure_counter_zero (targets : List String) (i : Nat) (r : Registry)
    (s : PingSender) (r2 : Registry)
    (h : PingSender.new targets i r true = .ok (s, r2))
    (t : String) (ht : t ∈ targets) :
    CounterVec.get? (ping_targets_setup s).failure_count t = some 0 := by
  obtain ⟨-, hfail, -, hds, -, -, -, -⟩ := PingSender.new_ok_inv h
  rw [collectResults_dispatcher_ok] at hds
  have hmap : s.dispatchers
      = targets.map fun t2 => ({ target := t2, ping_interval_ms := i }, initChannel) :=
    (Except.ok.inj hds).symm
  simp only [ping_targets_setup]
  rw [hmap, hfail, fold_inc_by_zero_get]
  simp [CounterVec.get?, List.map_map, Function.comp]
  exact ht

/-- C7 witness: after constructing for the single target `1.1.1.1`, its
failure counter is queryable and reads zero. -/
theorem c7_witness :
    CounterVec.get? (ping_targets_setup sampleSender).failure_count "1.1.1.1" = some 0 :=
  c7_failure_counter_zero ["1.1.1.1"] 250 [] sampleSender sampleRegistry rfl
    "1.1.1.1" (List.mem_cons_self _ _)

/-- C8: any successfully constructed `PingSender` carries the latency
histogram with exactly the bucket upper bounds 1, 5, 10, 25, 50, 100,
250, 500, 1000, 2500 milliseconds — independent of the target list, the
interval, the registry contents and the transport state, and shared by
all targets (the bucket list is a property of the one `HistogramVec`). -/
theorem c8_histogram_buckets (targets : List String) (i : Nat) (r : Registry)
    (ck : Bool) (s : PingSender) (r2 : Registry)
    (h : PingSender.new targets i r ck = .ok (s, r2)) :
    s.ping_duration_ms.buckets
      = [(1 : ℚ), 5, 10, 25, 50, 100, 250, 500, 1000, 2500] := by
  obtain ⟨-, -, hhist, -, -, -, -, -⟩ := PingSender.new_ok_inv h
  simp [hhist, pingBuckets]

/-- C8 witness: the concrete constructed sender carries exactly those
buckets. -/
theorem c8_witness :
    sampleSender.ping_duration_ms.buckets
      = [(1 : ℚ), 5, 10, 25, 50, 100, 250, 500, 1000, 2500] :=
  c8_histogram_buckets ["1.1.1.1"] 250 [] true sampleSender sampleRegistry rfl

/-- C9: constructing with an empty target list succeeds whenever the
three instrument names are free in the registry: it returns the sender
with an empty dispatcher list and the three instruments registered;
`ping_targets` on it spawns zero tasks and its synchronous part returns
with the instruments unchanged (no error, no panic). -/
theorem c9_empty_targets (i : Nat) (r : Registry) (ck : Bool)
    (h1 : "ping_success_count" ∉ r) (h2 : "ping_failure_count" ∉ r)
    (h3 : "ping_duration_ms" ∉ r) :
    PingSender.new [] i r ck
      = .ok (emptyPingSender,
          "ping_duration_ms" :: "ping_failure_count" :: "ping_success_count" :: r) ∧
    ping_targets_task_count emptyPingSender = 0 ∧
    ping_targets_setup emptyPingSender
      = { success_count := [], failure_count := [],
          ping_duration_ms := { buckets := pingBuckets, samples := [] } } := by
  refine ⟨?_, rfl, rfl⟩
  simp [PingSender.new, Registry.register, h1, h2, h3, collectResults, emptyPingSender]

/-- C9 witness: the empty-target construction against a fresh registry,
concretely. -/
theorem c9_witness :
    PingSender.new [] 250 [] true
      = .ok (emptyPingSender,
          ["ping_duration_ms", "ping_failure_count", "ping_success_count"]) ∧
    ping_targets_task_count emptyPingSender = 0 ∧
    ping_targets_setup emptyPingSender
      = { success_count := [], failure_count := [],
          ping_duration_ms := { buckets := pingBuckets, samples := [] } } :=
  c9_empty_targets 250 [] true (by decide) (by decide) (by decide)

/-- C10: the value the collector observes into `ping_duration_ms` for a
successful probe of duration `d` is `d.as_millis() as f64`: `d`
truncated to a whole number of milliseconds; in particular any
sub-millisecond duration is recorded as exactly 0, never as its
fractional value. -/
theorem c10_as_millis_truncation (target : String) (m : Metrics) (c : Channel)
    (d : Duration) (rest : List ProbeOutcome)
    (hbuf : c.buffer = ProbeOutcome.success d :: rest) :
    collectorTick target m c =
      CollectorStep.next
        { m with
          success_count := CounterVec.inc m.success_count target,
          ping_duration_ms :=
            HistogramVec.observe m.ping_duration_ms target ((Duration.as_millis d : ℚ)) }
        { c with buffer := rest } ∧
    (Duration.as_millis d : ℚ) = ((d.nanos / 1000000 : Nat) : ℚ) ∧
    (d.nanos < 1000000 → (Duration.as_millis d : ℚ) = 0) := by
  refine ⟨?_, rfl, ?_⟩
  · simp [collectorTick, Channel.try_recv, hbuf]
  · intro hsub
    have h0 : Duration.as_millis d = 0 := Nat.div_eq_of_lt hsub
    rw [h0]
    norm_num

/-- C10 witness: a 999 999 ns (just under one millisecond) success is
observed as exactly 0. -/
theorem c10_witness :
    (Duration.as_millis { nanos := 999999 } : ℚ) = 0 :=
  (c10_as_millis_truncation "1.1.1.1"
      { success_count := [], failure_count := [],
        ping_duration_ms := { buckets := pingBuckets, samples := [] } }
      { capacity := 5, buffer := [ProbeOutcome.success { nanos := 999999 }],
        senderClosed := false, receiverClosed := false }
      { nanos := 999999 } [] rfl).2.2 (by decide)

end Uppies
